import Mathlib

/-!
Shallow embedding of `dzielo_ai/create.py`: a pipeline that collects git
commit history for an author and month, writes the raw patch log to a file,
sends the "Merged PR" subject lines to a remote rewrite service, and saves
the rewritten summary plus a zip bundle.

External collaborators (the filesystem, the `git` tool, the remote
chat-completion API) are abstracted as environment inputs; the pipeline's
observable behaviour (which files are written, whether the remote service is
called, which error is logged) is captured in explicit trace records.
-/

namespace DzieloAI

/-- Calendar date, modelling Python's `datetime.date` triple
(`year`, `month`, `day`). The year is an unbounded integer. -/
structure Date where
  year : Int
  month : Nat
  day : Nat
deriving DecidableEq, Repr

/-- Gregorian leap-year test, as Python's `calendar` semantics:
divisible by 4 and (not by 100 or by 400). -/
def isLeap (y : Int) : Bool :=
  y % 4 = 0 && (y % 100 ≠ 0 || y % 400 = 0)

/-- Number of days in month `m` of year `y` (Gregorian calendar). -/
def daysInMonth (y : Int) (m : Nat) : Nat :=
  if m = 2 then (if isLeap y then 29 else 28)
  else if m = 4 ∨ m = 6 ∨ m = 9 ∨ m = 11 then 30
  else 31

/-- Calendar predecessor of a date: models Python's
`date - datetime.timedelta(days=1)` on a valid date. -/
def predDate (d : Date) : Date :=
  if 1 < d.day then ⟨d.year, d.month, d.day - 1⟩
  else if 1 < d.month then ⟨d.year, d.month - 1, daysInMonth d.year (d.month - 1)⟩
  else ⟨d.year - 1, 12, 31⟩

/-- Embedding of `get_previous_month` (create.py lines 67-80): the first day
of the month preceding the month of the given date. -/
def get_previous_month (date : Date) : Date :=
  if date.month = 1 then ⟨date.year - 1, 12, 1⟩
  else ⟨date.year, date.month - 1, 1⟩

/-- Embedding of `calculate_month_range` (create.py lines 185-202): the first
day of the month, and the day before the first day of the next month
(rolling the year over when the month is December). -/
def calculate_month_range (year : Int) (month : Nat) : Date × Date :=
  let first_day : Date := ⟨year, month, 1⟩
  let last_day :=
    if month = 12 then predDate ⟨year + 1, 1, 1⟩
    else predDate ⟨year, month + 1, 1⟩
  (first_day, last_day)

/-- Whitespace test matching Python's `str.strip` on the ASCII range
(the characters git log output can carry at its edges). -/
def isPyWhitespace (c : Char) : Bool :=
  c = ' ' || c = '\t' || c = '\n' || c = '\r' || c = '\x0b' || c = '\x0c'

/-- Both-ends whitespace strip on a character list, as Python `str.strip()`. -/
def stripChars (l : List Char) : List Char :=
  ((l.dropWhile isPyWhitespace).reverse.dropWhile isPyWhitespace).reverse

/-- Embedding of Python `str.strip()`. -/
def pyStrip (s : String) : String :=
  ⟨stripChars s.data⟩

/-- Split a character list at every newline, as Python `str.split("\n")`:
the empty list yields one empty field, and every newline separates fields. -/
def splitNl : List Char → List (List Char)
  | [] => [[]]
  | c :: rest =>
    match splitNl rest with
    | [] => [[]]
    | h :: t => if c = '\n' then [] :: h :: t else (c :: h) :: t

/-- Embedding of Python `s.split("\n")`. -/
def pySplitLines (s : String) : List String :=
  (splitNl s.data).map (fun l => ⟨l⟩)

/-- Character-list test that the first list occurs at the start of the
second list. -/
def startsWithChars : List Char → List Char → Bool
  | [], _ => true
  | _ :: _, [] => false
  | p :: ps, c :: cs => p = c && startsWithChars ps cs

/-- Embedding of Python `s.startswith(pre)`. -/
def pyStartsWith (s pre : String) : Bool :=
  startsWithChars pre.data s.data

/-- Newline-run collapsing over characters: `prevNl` records whether the
previous kept character was a newline. Models `re.sub(r"\n+", "\n", s)` in
`process_commits` (create.py line 380): each maximal run of one or more
newlines becomes a single newline. -/
def collapseAux : Bool → List Char → List Char
  | _, [] => []
  | prevNl, c :: rest =>
    if c = '\n' then
      if prevNl then collapseAux true rest
      else '\n' :: collapseAux true rest
    else c :: collapseAux false rest

/-- Embedding of the newline-collapsing post-processing step
`re.sub(r"\n+", "\n", rewritten_messages)`. -/
def collapseNewlines (s : String) : String :=
  ⟨collapseAux false s.data⟩

/-- The `strip().split("\n")` step of `load_commit_messages`
(create.py line 298). -/
def split_commit_messages (git_log_output : String) : List String :=
  pySplitLines (pyStrip git_log_output)

/-- The filtering comprehension of `load_commit_messages` (create.py
line 299): keep the lines that start with the literal "Merged PR". -/
def filter_merged (commit_messages : List String) : List String :=
  commit_messages.filter (fun msg => pyStartsWith msg "Merged PR")

/-- Error kinds raised or logged by the pipeline (create.py's ValueError,
subprocess.CalledProcessError, ConnectionError, the missing-API-key log,
and the system-prompt load failure). -/
inductive PipelineError where
  | configError (msg : String)
  | valueError (msg : String)
  | calledProcessError (stderrText : String)
  | promptError (msg : String)
  | connectionError (msg : String)
deriving DecidableEq, Repr

/-- Parsed command-line arguments (create.py `parse_arguments`); `custom`
carries the `(MONTH, YEAR)` integer pair when `--custom` is given. -/
structure Args where
  this_month : Bool
  previous_month : Bool
  custom : Option (Int × Int)
  author : String
  repo : String
  output_dir : String
  model : String
deriving DecidableEq, Repr

/-- Embedding of `determine_target_date` (create.py lines 142-162). -/
def determine_target_date (args : Args) (today : Date) :
    Except PipelineError Date :=
  if args.previous_month then .ok (get_previous_month today)
  else
    match args.custom with
    | some (month, year) =>
      if 1 ≤ month ∧ month ≤ 12 then .ok ⟨year, month.toNat, 1⟩
      else .error (.valueError "Month must be between 1 and 12.")
    | none => .ok today

/-- Embedding of `validate_repo_path` (create.py lines 165-182); whether the
path is an existing directory is an environment input. -/
def validate_repo_path (isDir : Bool) (repo_path : String) :
    Except PipelineError Unit :=
  if isDir then .ok ()
  else .error (.valueError
    ("The repository path " ++ repo_path ++ " is not a valid directory."))

/-- Zero-padded two-digit month rendering, as Python `f"{month:02d}"` for
months 1..12. -/
def pad2 (n : Nat) : String :=
  if n < 10 then "0" ++ toString n else toString n

/-- Name of the raw patch-log output file,
`f"{year}_{month:02d}_zmiany.txt"` under the output directory. -/
def commit_changes_filename (output_dir : String) (first_day : Date) : String :=
  output_dir ++ "/" ++ toString first_day.year ++ "_" ++ pad2 first_day.month
    ++ "_zmiany.txt"

/-- Name of the rewritten-summary output file,
`f"{year}_{month:02d}_opis_zmian.txt"` under the output directory. -/
def rewritten_filename (output_dir : String) (first_day : Date) : String :=
  output_dir ++ "/" ++ toString first_day.year ++ "_" ++ pad2 first_day.month
    ++ "_opis_zmian.txt"

/-- The author's local part with dots replaced by underscores,
`author.split("@")[0].replace(".", "_")`. -/
def author_local (author : String) : String :=
  ⟨(author.data.takeWhile (fun c => c ≠ '@')).map
    (fun c => if c = '.' then '_' else c)⟩

/-- Name of the zip bundle,
`f"dzielo_{author_name}_{year}_{month:02d}.zip"` under the output
directory. -/
def zip_filename (output_dir author : String) (first_day : Date) : String :=
  output_dir ++ "/dzielo_" ++ author_local author ++ "_"
    ++ toString first_day.year ++ "_" ++ pad2 first_day.month ++ ".zip"

/-- Embedding of `load_commit_messages` (create.py lines 275-304) given the
result of the subject-log git command: strip, split on newlines, keep the
"Merged PR" lines; a git failure propagates as CalledProcessError. -/
def load_commit_messages (subjectLog : Except String String) :
    Except PipelineError (List String) :=
  match subjectLog with
  | .ok git_log_output =>
    .ok (filter_merged (split_commit_messages git_log_output))
  | .error e => .error (.calledProcessError e)

/-- Embedding of `rewrite_commit_messages` (create.py lines 242-272) given
the remote service as a function: an OpenAIError is wrapped into
`ConnectionError("API request failed.")`. -/
def rewrite_commit_messages (rewrite : String → Except String String)
    (commit_messages : String) : Except PipelineError String :=
  match rewrite commit_messages with
  | .ok rewritten => .ok rewritten
  | .error _ => .error (.connectionError "API request failed.")

/-- Observable outcome of `process_commits`: the files written (name and
content, in write order), whether the remote rewrite service was called,
the zip archive created (if any), and the exception propagated (if any). -/
structure PState where
  files : List (String × String)
  rewriteCalled : Bool
  zipped : Option String
  err : Option PipelineError
deriving DecidableEq, Repr

/-- Embedding of `process_commits` (create.py lines 321-386). The two git
invocations and the rewrite service are environment inputs; file writes and
zipping are recorded in the trace. -/
def process_commits (patchLog subjectLog : Except String String)
    (rewrite : String → Except String String) (first_day _last_day : Date)
    (author output_dir : String) : PState :=
  let commit_changes_file := commit_changes_filename output_dir first_day
  let rewritten_file := rewritten_filename output_dir first_day
  let zip_file := zip_filename output_dir author first_day
  match patchLog with
  | .error e => ⟨[], false, none, some (.calledProcessError e)⟩
  | .ok commit_changes =>
    let files1 := [(commit_changes_file, commit_changes)]
    match load_commit_messages subjectLog with
    | .error e => ⟨files1, false, none, some e⟩
    | .ok merged_pr_messages =>
      if merged_pr_messages.isEmpty then ⟨files1, false, none, none⟩
      else
        let all_messages := String.intercalate "\n" merged_pr_messages
        match rewrite_commit_messages rewrite all_messages with
        | .error e => ⟨files1, true, none, some e⟩
        | .ok rewritten0 =>
          let rewritten_messages := collapseNewlines rewritten0
          ⟨files1 ++ [(rewritten_file, rewritten_messages ++ "\n")],
            true, some zip_file, none⟩

/-- Environment of one `main` run: the API key lookup, the parsed
arguments, whether the repo path is a directory, today's date, the system
prompt load, the two git command results, and the rewrite service. -/
structure MainEnv where
  apiKey : Option String
  args : Args
  repoIsDir : Bool
  today : Date
  systemPrompt : Except String String
  patchLog : Except String String
  subjectLog : Except String String
  rewrite : String → Except String String

/-- Observable outcome of `main`: the error logged before returning (if
any), whether git was ever invoked, whether the rewrite service was called,
the files written, and the zip archive created (if any). `main` always
returns a trace: every stage error is caught and logged, never re-raised. -/
structure MainTrace where
  errorLogged : Option PipelineError
  gitCalled : Bool
  rewriteCalled : Bool
  filesWritten : List (String × String)
  zipped : Option String
deriving DecidableEq, Repr

/-- Python truthiness of `not openai_api_key`: the key is missing when the
environment variable is unset or empty. -/
def keyMissing : Option String → Bool
  | none => true
  | some s => s == ""

/-- Embedding of `load_system_prompt` (create.py lines 41-61) given the
file read result. -/
def load_system_prompt (promptFile : Except String String) :
    Except PipelineError String :=
  match promptFile with
  | .ok content => .ok content
  | .error msg => .error (.promptError msg)

/-- Embedding of the function `main` (create.py lines 389-452): key check,
repo-path validation, target-date resolution, month-range computation,
system-prompt load, then `process_commits`; each stage failure is logged
and `main` returns. Note that `main` only runs after module import has
succeeded, which already constructed the OpenAI client at line 64 (see
`run_script`); `main`'s own key check is therefore reachable only when
that construction did not raise. -/
def main (env : MainEnv) : MainTrace :=
  if keyMissing env.apiKey then
    ⟨some (.configError
      "OpenAI API key not found. Please set the OPENAI_API_KEY environment variable."),
      false, false, [], none⟩
  else
    match validate_repo_path env.repoIsDir env.args.repo with
    | .error e => ⟨some e, false, false, [], none⟩
    | .ok _ =>
      match determine_target_date env.args env.today with
      | .error e => ⟨some e, false, false, [], none⟩
      | .ok target_date =>
        let fd_ld := calculate_month_range target_date.year target_date.month
        match load_system_prompt env.systemPrompt with
        | .error e => ⟨some e, false, false, [], none⟩
        | .ok _system_prompt =>
          let ps := process_commits env.patchLog env.subjectLog env.rewrite
            fd_ld.1 fd_ld.2 env.args.author env.args.output_dir
          ⟨ps.err, true, ps.rewriteCalled, ps.files, ps.zipped⟩

/-- Embedding of the module-level `client = OpenAI()` (create.py line 64).
The openai-python 1.x constructor raises OpenAIError when no API key is
available: it falls back to `os.environ.get("OPENAI_API_KEY")` and raises
exactly when that lookup returns None (an empty-string value is accepted by
the constructor). -/
def openai_client_init (apiKey : Option String) : Except String Unit :=
  match apiKey with
  | none => .error
      "The api_key client option must be set either by passing api_key to the client or by setting the OPENAI_API_KEY environment variable"
  | some _ => .ok ()

/-- Outcome of running the script: an uncaught exception escaping to the
interpreter (a traceback), or a completed `main` run with its trace. -/
inductive RunOutcome where
  | raised (msg : String)
  | ran (trace : MainTrace)
deriving DecidableEq, Repr

/-- Embedding of executing the script (create.py lines 455-456): importing
the module constructs the OpenAI client at line 64 before `main` is ever
called; a construction failure is an uncaught exception, and only when it
succeeds does `main` run. -/
def run_script (env : MainEnv) : RunOutcome :=
  match openai_client_init env.apiKey with
  | .error e => .raised e
  | .ok _ => .ran (main env)

end DzieloAI

namespace DzieloAI

/-- Helper: collapsing newline runs twice from the same carry state is the
same as collapsing once. -/
theorem collapseAux_collapseAux (l : List Char) :
    ∀ b, collapseAux b (collapseAux b l) = collapseAux b l := by
  induction l with
  | nil => intro b; rfl
  | cons c rest ih =>
    intro b
    by_cases hc : c = '\n'
    · subst hc
      cases b with
      | true => simp [collapseAux, ih]
      | false => simp [collapseAux, ih]
    · simp [collapseAux, hc, ih]

/-- C1: for every year `y` and month `m` with `1 ≤ m ≤ 12`,
`calculate_month_range y m` returns the first calendar day of the month as
its first component, and a last day that equals the day before the first day
of month `m+1` (the day before January 1 of `y+1` when `m = 12`), which is
the true calendar end of the month `⟨y, m, daysInMonth y m⟩`. -/
theorem calculate_month_range_correct (y : Int) (m : Nat)
    (h1 : 1 ≤ m) (h2 : m ≤ 12) :
    (calculate_month_range y m).1 = ⟨y, m, 1⟩ ∧
    (calculate_month_range y m).2 =
      (if m = 12 then predDate ⟨y + 1, 1, 1⟩ else predDate ⟨y, m + 1, 1⟩) ∧
    (calculate_month_range y m).2 = ⟨y, m, daysInMonth y m⟩ := by
  refine ⟨rfl, rfl, ?_⟩
  by_cases hm : m = 12
  · subst hm
    simp only [calculate_month_range, predDate, daysInMonth]
    norm_num
  · have hm1 : 1 < m + 1 := by omega
    simp only [calculate_month_range, predDate, hm, if_false]
    simp only [show ¬(1 < (1:Nat)) by omega, if_false, hm1, if_true]
    simp

/-- Witness for C1 at the December rollover: the range of December 2023 ends
on December 31, 2023, the day before January 1, 2024. -/
theorem calculate_month_range_correct_witness :
    (1 ≤ 12 ∧ 12 ≤ 12) ∧
    ((calculate_month_range 2023 12).1 = ⟨2023, 12, 1⟩ ∧
     (calculate_month_range 2023 12).2 =
       (if 12 = 12 then predDate ⟨2023 + 1, 1, 1⟩
        else predDate ⟨2023, 12 + 1, 1⟩) ∧
     (calculate_month_range 2023 12).2 = ⟨2023, 12, daysInMonth 2023 12⟩) :=
  ⟨by omega, calculate_month_range_correct 2023 12 (by omega) (by omega)⟩

/-- C4: `get_previous_month` on a date in January of year `Y` returns
December 1 of year `Y - 1` (for any day of the month); on a date in a month
`M > 1` it returns the first day of month `M - 1` of the same year. -/
theorem get_previous_month_correct (d : Date) :
    (d.month = 1 → get_previous_month d = ⟨d.year - 1, 12, 1⟩) ∧
    (1 < d.month → get_previous_month d = ⟨d.year, d.month - 1, 1⟩) := by
  constructor
  · intro h1
    simp [get_previous_month, h1]
  · intro h1
    have hne : d.month ≠ 1 := by omega
    simp [get_previous_month, hne]

/-- Witness for C4: January 15, 2024 maps to December 1, 2023, and
June 10, 2024 maps to June's predecessor May 1, 2024. -/
theorem get_previous_month_correct_witness :
    get_previous_month ⟨2024, 1, 15⟩ = ⟨2023, 12, 1⟩ ∧
    get_previous_month ⟨2024, 6, 10⟩ = ⟨2024, 5, 1⟩ :=
  ⟨by
    have h := (get_previous_month_correct ⟨2024, 1, 15⟩).1 rfl
    simpa using h,
   by
    have h := (get_previous_month_correct ⟨2024, 6, 10⟩).2 (by norm_num)
    simpa using h⟩

/-- C2: the filtering step keeps exactly the lines that start with the
literal "Merged PR": the result is a sublist of the input (original order,
no insertion), every retained line has the marker, every input line with
the marker is retained, and each line's multiplicity is preserved exactly
when it has the marker and is zero otherwise (so retained lines are input
lines, textually unchanged). -/
theorem filter_merged_correct (l : List String) :
    (filter_merged l).Sublist l ∧
    (∀ m ∈ filter_merged l, pyStartsWith m "Merged PR" = true) ∧
    (∀ m ∈ l, pyStartsWith m "Merged PR" = true → m ∈ filter_merged l) ∧
    (∀ m : String, (filter_merged l).count m =
      if pyStartsWith m "Merged PR" = true then l.count m else 0) := by
  refine ⟨List.filter_sublist l, ?_, ?_, ?_⟩
  · intro m hm
    exact (List.mem_filter.mp hm).2
  · intro m hm h
    exact List.mem_filter.mpr ⟨hm, h⟩
  · intro m
    by_cases h : pyStartsWith m "Merged PR" = true
    · simp only [filter_merged, h, if_true]
      exact List.count_filter h
    · rw [if_neg h, List.count_eq_zero]
      intro hmem
      exact h (List.mem_filter.mp hmem).2

/-- Witness for C2: a concrete "Merged PR" line of the input is retained by
the filtering step. -/
theorem filter_merged_correct_witness :
    "Merged PR 7: x" ∈
      filter_merged ["Merged PR 7: x", "chore: tidy", "Merged PR 8: y"] :=
  (filter_merged_correct
      ["Merged PR 7: x", "chore: tidy", "Merged PR 8: y"]).2.2.1
    "Merged PR 7: x" (by decide) (by decide)

/-- C5: the newline-collapsing post-processing step is idempotent: applying
it twice to any string yields the same result as applying it once. -/
theorem collapseNewlines_idempotent (s : String) :
    collapseNewlines (collapseNewlines s) = collapseNewlines s :=
  congrArg String.mk (collapseAux_collapseAux s.data false)

/-- C3: when the filtered "Merged PR" list is empty, `process_commits`
writes exactly the patch-log file, does not call the rewrite service,
creates no rewritten-summary file and no zip, and finishes without an
error. -/
theorem process_commits_no_merged (patchLog subjectLog : Except String String)
    (rewrite : String → Except String String) (first_day last_day : Date)
    (author output_dir : String) (patch out : String)
    (hp : patchLog = .ok patch) (hs : subjectLog = .ok out)
    (hempty : filter_merged (split_commit_messages out) = []) :
    process_commits patchLog subjectLog rewrite first_day last_day author
      output_dir =
    ⟨[(commit_changes_filename output_dir first_day, patch)], false, none,
      none⟩ := by
  subst hp hs
  simp [process_commits, load_commit_messages, hempty]

/-- Witness for C3: a period whose only subject line is not a "Merged PR"
line yields the patch-log file only, with no rewrite call and no error. -/
theorem process_commits_no_merged_witness :
    filter_merged (split_commit_messages "chore: tidy") = [] ∧
    process_commits (.ok "patchdata") (.ok "chore: tidy")
      (fun _ => .error "unused") ⟨2023, 6, 1⟩ ⟨2023, 6, 30⟩
      "yuriy.babyak@goelett.com" "output" =
    ⟨[(commit_changes_filename "output" ⟨2023, 6, 1⟩, "patchdata")], false,
      none, none⟩ :=
  ⟨by decide,
   process_commits_no_merged _ _ _ _ _ _ _ _ _ rfl rfl (by decide)⟩

/-- C10: an empty git subject log still yields an empty filtered list
(stripping and splitting the empty string gives a single empty line, which
does not start with "Merged PR"), so `process_commits` takes the
empty-period short circuit: no rewrite call, no error. -/
theorem load_commit_messages_empty_output :
    pyStrip "" = "" ∧
    pySplitLines "" = [""] ∧
    pyStartsWith "" "Merged PR" = false ∧
    load_commit_messages (.ok "") = .ok [] ∧
    (process_commits (.ok "p") (.ok "") (fun _ => .error "never called")
        ⟨2024, 1, 1⟩ ⟨2024, 1, 31⟩ "a@b" "output").rewriteCalled = false ∧
    (process_commits (.ok "p") (.ok "") (fun _ => .error "never called")
        ⟨2024, 1, 1⟩ ⟨2024, 1, 31⟩ "a@b" "output").err = none := by
  refine ⟨rfl, rfl, rfl, rfl, by decide, by decide⟩

/-- C6: a `--custom` month outside 1..12 is rejected by
`determine_target_date` with the ValueError "Month must be between 1 and
12.", which `main` logs before returning: git is never invoked, no file is
written, no zip is created, the rewrite service is not called. -/
theorem main_custom_month_out_of_range (env : MainEnv) (m y : Int)
    (hkey : keyMissing env.apiKey = false)
    (hrepo : env.repoIsDir = true)
    (hprev : env.args.previous_month = false)
    (hcustom : env.args.custom = some (m, y))
    (hm : m < 1 ∨ 12 < m) :
    main env =
    ⟨some (.valueError "Month must be between 1 and 12."), false, false, [],
      none⟩ := by
  have hcond : ¬(1 ≤ m ∧ m ≤ 12) := by omega
  simp [main, hkey, validate_repo_path, hrepo, determine_target_date, hprev,
    hcustom, hcond]

/-- Witness for C6: a run with `--custom 13 2023` and an otherwise healthy
environment is rejected before any git call. -/
theorem main_custom_month_out_of_range_witness :
    (keyMissing (some "sk-key") = false ∧ (13 : Int) < 1 ∨ (12 : Int) < 13) ∧
    main ⟨some "sk-key",
      ⟨false, false, some (13, 2023), "yuriy.babyak@goelett.com",
        "../travel-frontend/", "output", "gpt-4o-mini"⟩,
      true, ⟨2024, 5, 3⟩, .ok "prompt", .ok "patch", .ok "subjects",
      fun _ => .ok "rewritten"⟩ =
    ⟨some (.valueError "Month must be between 1 and 12."), false, false, [],
      none⟩ :=
  ⟨by norm_num,
   main_custom_month_out_of_range _ 13 2023 rfl rfl rfl rfl (by norm_num)⟩

/-- C7: when the repository path is not an existing directory, `main` logs
the ValueError from `validate_repo_path` and returns before any git
invocation, with zero output files, no zip, and no rewrite call. -/
theorem main_invalid_repo_path (env : MainEnv)
    (hkey : keyMissing env.apiKey = false)
    (hrepo : env.repoIsDir = false) :
    main env =
    ⟨some (.valueError ("The repository path " ++ env.args.repo
        ++ " is not a valid directory.")), false, false, [], none⟩ := by
  simp [main, hkey, validate_repo_path, hrepo]

/-- Witness for C7: a run whose repository path is not a directory aborts
with the path ValueError and creates nothing. -/
theorem main_invalid_repo_path_witness :
    keyMissing (some "sk-key") = false ∧
    main ⟨some "sk-key",
      ⟨false, false, none, "yuriy.babyak@goelett.com", "/no/such/dir",
        "output", "gpt-4o-mini"⟩,
      false, ⟨2024, 5, 3⟩, .ok "prompt", .ok "patch", .ok "subjects",
      fun _ => .ok "rewritten"⟩ =
    ⟨some (.valueError
        ("The repository path " ++ "/no/such/dir"
          ++ " is not a valid directory.")), false, false, [], none⟩ :=
  ⟨rfl, main_invalid_repo_path _ rfl rfl⟩

/-- C8 (code bug): with the OPENAI_API_KEY environment variable absent, the
module-level `client = OpenAI()` at create.py line 64 raises an uncaught
OpenAIError during import, before `main` ever runs, so the program
terminates with a traceback instead of the logged message and clean return
that `main`'s own key check at lines 396-399 (and the spec) intend. That
graceful path is reachable only when the variable is set, for example to
the empty string, as the second conjunct shows. -/
theorem run_script_missing_key_raises :
    run_script ⟨none,
      ⟨false, false, none, "yuriy.babyak@goelett.com", "../travel-frontend/",
        "output", "gpt-4o-mini"⟩,
      true, ⟨2024, 5, 3⟩, .ok "prompt", .ok "patch", .ok "subjects",
      fun _ => .ok "rewritten"⟩ =
    .raised
      "The api_key client option must be set either by passing api_key to the client or by setting the OPENAI_API_KEY environment variable" ∧
    run_script ⟨some "",
      ⟨false, false, none, "yuriy.babyak@goelett.com", "../travel-frontend/",
        "output", "gpt-4o-mini"⟩,
      true, ⟨2024, 5, 3⟩, .ok "prompt", .ok "patch", .ok "subjects",
      fun _ => .ok "rewritten"⟩ =
    .ran ⟨some (.configError
      "OpenAI API key not found. Please set the OPENAI_API_KEY environment variable."),
      false, false, [], none⟩ :=
  ⟨rfl, rfl⟩

/-- C9: when the remote rewrite call fails, the OpenAIError is wrapped into
ConnectionError "API request failed.", which propagates out of
`process_commits` and is logged at top level by `main`; the run ends with
only the previously written patch-log file (no rewritten summary, no zip),
the un-rewritten messages are not written as a fallback. -/
theorem main_rewrite_failure (env : MainEnv) (p patch subj e : String)
    (hkey : keyMissing env.apiKey = false)
    (hrepo : env.repoIsDir = true)
    (hprev : env.args.previous_month = false)
    (hcustom : env.args.custom = none)
    (hsp : env.systemPrompt = .ok p)
    (hpatch : env.patchLog = .ok patch)
    (hsubj : env.subjectLog = .ok subj)
    (hne : filter_merged (split_commit_messages subj) ≠ [])
    (hrw : env.rewrite (String.intercalate "\n"
        (filter_merged (split_commit_messages subj))) = .error e) :
    main env =
    ⟨some (.connectionError "API request failed."), true, true,
      [(commit_changes_filename env.args.output_dir
          ⟨env.today.year, env.today.month, 1⟩, patch)], none⟩ := by
  have hie : (filter_merged (split_commit_messages subj)).isEmpty = false := by
    simpa [List.isEmpty_iff] using hne
  simp [main, hkey, validate_repo_path, hrepo, determine_target_date, hprev,
    hcustom, load_system_prompt, hsp, calculate_month_range, process_commits,
    hpatch, load_commit_messages, hsubj, hie, rewrite_commit_messages, hrw]

/-- Witness for C9: a run with one "Merged PR" subject line and a failing
rewrite service ends with the connection error logged and only the
patch-log file written. -/
theorem main_rewrite_failure_witness :
    filter_merged
        (split_commit_messages "Merged PR 101: fix login\nchore: bump")
      ≠ [] ∧
    main ⟨some "sk-key",
      ⟨false, false, none, "yuriy.babyak@goelett.com", "../travel-frontend/",
        "output", "gpt-4o-mini"⟩,
      true, ⟨2023, 6, 15⟩, .ok "prompt", .ok "PATCH",
      .ok "Merged PR 101: fix login\nchore: bump",
      fun _ => .error "boom"⟩ =
    ⟨some (.connectionError "API request failed."), true, true,
      [(commit_changes_filename "output" ⟨2023, 6, 1⟩, "PATCH")], none⟩ :=
  ⟨by decide,
   main_rewrite_failure _ "prompt" "PATCH"
     "Merged PR 101: fix login\nchore: bump" "boom"
     rfl rfl rfl rfl rfl rfl rfl (by decide) rfl⟩

end DzieloAI
